import Mathlib

/-!
Shallow embedding of `run_pdf.py` (class `PDFGenerator`).

Conventions of the embedding:
* Python dicts with string keys are modelled as `Json.obj` over association
  lists, preserving insertion order (Python 3.7+ dict iteration order).
* Python exceptions are modelled by `Except Err`; the error kinds follow the
  spec's taxonomy (`InvalidInput` for `KeyError`/`ValueError`/`TypeError`,
  `indexError` for `IndexError` at `coords[0]` on an empty list,
  `externalProcessFailure` for `subprocess.CalledProcessError`, `ioError`
  for an OS-level exception raised by the drawing library during export).
* Real-valued geometry is stated over `ℝ` with `Real.pi`, `Real.cos`,
  `Real.sin`.  Because `ℝ` has no executable code in Lean, the geometric
  definitions are parametric in a scalar field `K` together with the
  constant `pi` and the functions `cos`, `sin`; every theorem instantiates
  them with `ℝ`, `Real.pi`, `Real.cos`, `Real.sin`.
* The matplotlib `savefig` + `base64.b64encode` step of
  `generate_radar_chart` produces opaque bytes that are outside a shallow
  embedding; it is modelled by an explicit oracle parameter
  `save : String → Except Err String` mapping a format name to the base64
  payload, or to the exception that the export raised.  Likewise
  `json.dumps` is an abstract parameter `dumps : Json → String`, and the
  external `node cli.js` invocation is an oracle
  `runNode : String → String → ℤ` giving the process exit code.
* Figure lifecycle (`fig, ax = plt.subplots(...)` at line 103 and
  `plt.close(fig)` at line 155) is recorded as an explicit event trace so
  that resource-release claims are statable.
-/

/-- JSON-like values: the shape of the records `PDFGenerator` consumes.
Objects are association lists of string keys, in insertion order. -/
inductive Json where
  | str (s : String)
  | num (n : ℤ)
  | obj (fields : List (String × Json))
  | arr (elems : List Json)

/-- Error kinds, following the spec's error taxonomy (§7).  `invalidInput`
models Python `KeyError`/`ValueError`/`TypeError`/`AttributeError`;
`indexError` models `IndexError` (`coords[0]` on an empty list);
`externalProcessFailure` models `subprocess.CalledProcessError`, carrying
the exit code and the captured output (`None` when nothing was captured);
`ioError` models an OS-level exception during image export. -/
inductive Err where
  | invalidInput (msg : String)
  | indexError
  | externalProcessFailure (code : ℤ) (output : Option String)
  | ioError
deriving DecidableEq

/-- Events recording the drawing-surface lifecycle of
`generate_radar_chart`: figure creation (line 103) and release
(`plt.close(fig)`, line 155). -/
inductive Event where
  | figCreated
  | figClosed
deriving DecidableEq

/-- Lookup of a key in an association list, first match wins: Python
`d[k]` on a dict (success case). -/
def getKey (fields : List (String × Json)) (k : String) : Option Json :=
  (fields.find? (fun p => p.1 = k)).map (fun p => p.2)

/-- Python `d[k] = v` on a dict: replaces the value in place when the key
is present (keeping its position), otherwise appends the new key at the
end (insertion order). -/
def setKey (fields : List (String × Json)) (k : String) (v : Json) :
    List (String × Json) :=
  if fields.any (fun p => p.1 = k) then
    fields.map (fun p => if p.1 = k then (k, v) else p)
  else fields ++ [(k, v)]

/-- Python subscript `data[k]`: succeeds only on a dict containing the
key; a missing key (`KeyError`) or a non-dict receiver (`TypeError`) is
`invalidInput` in the spec's taxonomy. -/
def Json.getField : Json → String → Except Err Json
  | .obj fields, k =>
      match getKey fields k with
      | some v => .ok v
      | none => .error (.invalidInput k)
  | _, k => .error (.invalidInput k)

/-- Python `data[k] = v`: succeeds only on a dict receiver. -/
def Json.setField : Json → String → Json → Except Err Json
  | .obj fields, k, v => .ok (.obj (setKey fields k v))
  | _, k, _ => .error (.invalidInput k)

/-- Value of a decimal digit string, most significant first. -/
def digitsVal (cs : List Char) : ℕ :=
  cs.foldl (fun acc c => 10 * acc + (c.toNat - 48)) 0

/-- Model of Python `int(s)` on a string: an optional sign followed by a
nonempty run of decimal digits; anything else raises `ValueError`
(`invalidInput`).  Python's surrounding-whitespace stripping and
underscore separators are omitted as unused by this repository. -/
def pyParseInt (s : String) : Except Err ℤ :=
  match s.toList with
  | '-' :: cs =>
      if !cs.isEmpty && cs.all Char.isDigit then .ok (-(digitsVal cs : ℤ))
      else .error (.invalidInput s)
  | '+' :: cs =>
      if !cs.isEmpty && cs.all Char.isDigit then .ok (digitsVal cs)
      else .error (.invalidInput s)
  | cs =>
      if !cs.isEmpty && cs.all Char.isDigit then .ok (digitsVal cs)
      else .error (.invalidInput s)

/-- Python `int(x)` as applied at line 91: identity on an integer, string
parsing on a string, `TypeError` (`invalidInput`) otherwise. -/
def pyInt : Json → Except Err ℤ
  | .num n => .ok n
  | .str s => pyParseInt s
  | _ => .error (.invalidInput "int")

/-- Line 39: `[np.pi/2 - 2*np.pi*i/n_points for i in range(n_points)]`.
The `lru_cache` decorator only memoizes this pure function, so the
embedding is the function itself. -/
def calculateRadarPositions {K : Type} [Field K] (pi : K) (nPoints : ℕ) :
    List K :=
  (List.range nPoints).map
    (fun i : ℕ => pi / 2 - 2 * pi * (i : K) / (nPoints : K))

/-- Lines 97–98: `[(v * np.cos(theta), v * np.sin(theta)) for v, theta in
zip(values, angles)]`.  Python `zip` stops at the shorter list, exactly
like `List.zipWith`. -/
def radarCoords {K : Type} [Field K] (cos sin : K → K)
    (values angles : List K) : List (K × K) :=
  List.zipWith (fun v θ => (v * cos θ, v * sin θ)) values angles

/-- Line 99 (also line 50): `coords.append(coords[0])`.  On an empty list
`coords[0]` raises `IndexError`; otherwise the first point is re-appended
after the last. -/
def closePolygon {α : Type} (coords : List α) : Except Err (List α) :=
  match coords with
  | [] => .error .indexError
  | c :: cs => .ok ((c :: cs) ++ [c])

/-- Lines 97–100: the series-plotting step, computing the data polygon
from scores and angles and closing it. -/
def plotSeries {K : Type} [Field K] (cos sin : K → K)
    (values angles : List K) : Except Err (List (K × K)) :=
  closePolygon (radarCoords cos sin values angles)

/-- Lines 48–49: the vertices of one grid ring,
`[(radial_value * np.cos(theta), radial_value * np.sin(theta)) for theta
in angles]`. -/
def gridRingCoords {K : Type} [Field K] (cos sin : K → K)
    (radialValue : K) (angles : List K) : List (K × K) :=
  angles.map (fun θ => (radialValue * cos θ, radialValue * sin θ))

/-- Line-style properties passed to `ax.plot` for a grid ring
(lines 54–59). -/
structure LineProps where
  color : String
  linewidth : ℚ
  linestyle : String
  alpha : ℚ
deriving DecidableEq

/-- Lines 54–59: the ring whose value equals `max_value` gets the dark,
thick, solid, fully opaque style; every other ring gets the gray, thin,
dashed, semi-transparent style. -/
def lineProps (radialValue maxValue : ℕ) : LineProps :=
  { color := if radialValue = maxValue then "#333333" else "gray"
    linewidth := if radialValue = maxValue then 3 / 2 else 1 / 2
    linestyle := if radialValue = maxValue then "-" else "--"
    alpha := if radialValue = maxValue then 1 else 7 / 10 }

/-- Python `range(start, stop, step)` for a positive step. -/
def pyRange (start stop step : ℕ) : List ℕ :=
  (List.range ((stop - start + (step - 1)) / step)).map
    (fun i => start + step * i)

/-- Line 44: `grid_values = range(25, max_value + 1, 25)`. -/
def gridValues (maxValue : ℕ) : List ℕ :=
  pyRange 25 (maxValue + 1) 25

/-- Loop body of `_create_radar_grid` (lines 46–60) over a list of ring
values: each ring's vertices are computed, the polygon is closed by
re-appending the first vertex, and the ring is drawn with its line
properties. -/
def gridRings {K : Type} [Field K] (cos sin : K → K) (angles : List K)
    (maxValue : ℕ) :
    List ℕ → Except Err (List (List (K × K) × LineProps))
  | [] => .ok []
  | r :: rest =>
      match closePolygon (gridRingCoords cos sin (r : K) angles) with
      | .error e => .error e
      | .ok ring =>
          match gridRings cos sin angles maxValue rest with
          | .error e => .error e
          | .ok more => .ok ((ring, lineProps r maxValue) :: more)

/-- Lines 41–60: `_create_radar_grid`, returned as the list of drawn
rings (closed polygon plus line properties) in drawing order. -/
def createRadarGrid {K : Type} [Field K] (cos sin : K → K)
    (angles : List K) (maxValue : ℕ := 100) :
    Except Err (List (List (K × K) × LineProps)) :=
  gridRings cos sin angles maxValue (gridValues maxValue)

/-- Line 89: `data["EDAPPGS006"]["ResultInfo"]["genetic_results"]`,
followed by `.values()` (iteration over dict values in insertion
order). -/
def extractGeneticResults (data : Json) : Except Err (List Json) :=
  match Json.getField data "EDAPPGS006" with
  | .error e => .error e
  | .ok product =>
      match Json.getField product "ResultInfo" with
      | .error e => .error e
      | .ok resultInfo =>
          match Json.getField resultInfo "genetic_results" with
          | .error e => .error e
          | .ok (.obj fields) => .ok (fields.map (fun p => p.2))
          | .ok _ => .error (.invalidInput "genetic_results")

/-- Line 90: `[value["holland_code"] for value in
genetic_results.values()]`. -/
def extractCategories : List Json → Except Err (List Json)
  | [] => .ok []
  | e :: rest =>
      match Json.getField e "holland_code" with
      | .error err => .error err
      | .ok c =>
          match extractCategories rest with
          | .error err => .error err
          | .ok cs => .ok (c :: cs)

/-- Line 91: `[int(value["result"]) for value in
genetic_results.values()]`. -/
def extractValues : List Json → Except Err (List ℤ)
  | [] => .ok []
  | e :: rest =>
      match Json.getField e "result" with
      | .error err => .error err
      | .ok r =>
          match pyInt r with
          | .error err => .error err
          | .ok v =>
              match extractValues rest with
              | .error err => .error err
              | .ok vs => .ok (v :: vs)

/-- Lines 132–152: the export loop over `save_formats`, building the
`results` dict in format order.  The `save` oracle stands for
`plt.savefig` into a buffer followed by `base64.b64encode`, or for the
exception that export raised. -/
def saveLoop (save : String → Except Err String) :
    List String → Except Err (List (String × String))
  | [] => .ok []
  | fmt :: rest =>
      match save fmt with
      | .error e => .error e
      | .ok payload =>
          match saveLoop save rest with
          | .error e => .error e
          | .ok others => .ok ((fmt, payload) :: others)

/-- Lines 87–162: `generate_radar_chart`, with the drawing-surface
lifecycle recorded as an event trace.  Control flow of the source: data
extraction (89–91), angle table (93–94), data polygon with closure
(97–100), figure creation (103), grid drawing (106), export loop
(132–152), `plt.close(fig)` (155), return (158).  The `except` block
(160–162) logs and re-raises, so an error anywhere propagates unchanged
and later steps (including the close) do not run. -/
def generateRadarChartT {K : Type} [Field K] (pi : K) (cos sin : K → K)
    (save : String → Except Err String) (data : Json)
    (saveFormats : List String) :
    List Event × Except Err (List (String × String)) :=
  match extractGeneticResults data with
  | .error e => ([], .error e)
  | .ok entries =>
      match extractCategories entries with
      | .error e => ([], .error e)
      | .ok categories =>
          match extractValues entries with
          | .error e => ([], .error e)
          | .ok values =>
              match plotSeries cos sin (values.map (fun v : ℤ => (v : K)))
                  (calculateRadarPositions pi categories.length) with
              | .error e => ([], .error e)
              | .ok _polygon =>
                  match createRadarGrid cos sin
                      (calculateRadarPositions pi categories.length) 100 with
                  | .error e => ([Event.figCreated], .error e)
                  | .ok _grid =>
                      match saveLoop save saveFormats with
                      | .error e => ([Event.figCreated], .error e)
                      | .ok results =>
                          ([Event.figCreated, Event.figClosed], .ok results)

/-- Value returned (or exception raised) by `generate_radar_chart`. -/
def generateRadarChart {K : Type} [Field K] (pi : K) (cos sin : K → K)
    (save : String → Except Err String) (data : Json)
    (saveFormats : List String) : Except Err (List (String × String)) :=
  (generateRadarChartT pi cos sin save data saveFormats).2

/-- Lines 164–175: `prepare_pdf_data`.  Generates the chart requesting
only `svg`, then writes `chart_data['svg']` into the record under the
top-level key `RadarGraphBase64` and returns the extended record.  The
`except` block logs and re-raises, so chart failures propagate
unchanged. -/
def preparePdfData {K : Type} [Field K] (pi : K) (cos sin : K → K)
    (save : String → Except Err String) (rawData : Json) :
    Except Err Json :=
  match generateRadarChart pi cos sin save rawData ["svg"] with
  | .error e => .error e
  | .ok chartData =>
      match (chartData.find? (fun p => p.1 = "svg")).map (fun p => p.2) with
      | none => .error (.invalidInput "svg")
      | some svg => Json.setField rawData "RadarGraphBase64" (.str svg)

/-- Lines 177–212: `generate_pdf_subprocess`.  Prepares the data, then
runs `node cli.js --data <json> --output <path>` with `check=True`: a
zero exit code returns the output path, any other exit code raises
`CalledProcessError` carrying that code (no output is captured, so the
error's output field is `none`). -/
def generatePdfSubprocess {K : Type} [Field K] (pi : K) (cos sin : K → K)
    (save : String → Except Err String)
    (dumps : Json → String) (runNode : String → String → ℤ)
    (data : Json) (outputPath : String) : Except Err String :=
  match preparePdfData pi cos sin save data with
  | .error e => .error e
  | .ok prepared =>
      let code := runNode (dumps prepared) outputPath
      if code = 0 then .ok outputPath
      else .error (.externalProcessFailure code none)

/-- Six scores against five angles: a concrete length-mismatched input. -/
def scoresSix : List ℝ := [10, 20, 30, 40, 50, 60]

/-- Export oracle that always succeeds with a fixed base64 payload. -/
def goodSave : String → Except Err String := fun _ => .ok "PAYLOAD"

/-- Export oracle whose `savefig` raises an OS-level exception. -/
def badSave : String → Except Err String := fun _ => .error Err.ioError

/-- Stub for `json.dumps`. -/
def dumpsStub : Json → String := fun _ => ""

/-- External renderer stub that always exits with code 1. -/
def runNodeFail : String → String → ℤ := fun _ _ => 1

/-- Well-formed input record shaped like the `SAMPLE_DATA` fixture
(restricted to the fields the chart pipeline reads). -/
def sampleFields : List (String × Json) :=
  [("EDAPPGS006", .obj
    [("ResultInfo", .obj
      [("genetic_results", .obj
        [("A_results", .obj
          [("holland_code", .str "Artistic"), ("result", .str "30")]),
         ("C_results", .obj
          [("holland_code", .str "Conventional"), ("result", .str "50")])])])])]

/-- Well-formed input record as a `Json` value. -/
def sampleRecord : Json := .obj sampleFields

/-- Expected result of `prepare_pdf_data` on `sampleRecord` with the
`goodSave` oracle: the same record with `RadarGraphBase64` appended. -/
def enrichedSample : Json :=
  .obj (sampleFields ++ [("RadarGraphBase64", Json.str "PAYLOAD")])

/-- Genetic-results entry whose score string is non-numeric. -/
def badEntry : Json :=
  .obj [("holland_code", Json.str "Artistic"), ("result", Json.str "abc")]

/-- Input record containing a genetic-results entry with a non-numeric
score string. -/
def badRecord : Json :=
  .obj [("EDAPPGS006", .obj
    [("ResultInfo", .obj
      [("genetic_results", .obj [("A_results", badEntry)])])])]

/-! Helper lemmas. -/

lemma calculateRadarPositions_getElem {K : Type} [Field K] (pi : K)
    (n i : ℕ) (h : i < n) :
    (calculateRadarPositions pi n)[i]? =
      some (pi / 2 - 2 * pi * (i : K) / (n : K)) := by
  rw [calculateRadarPositions, List.getElem?_map, List.getElem?_range h,
    Option.map_some']

lemma length_calculateRadarPositions {K : Type} [Field K] (pi : K) (n : ℕ) :
    (calculateRadarPositions pi n).length = n := by
  rw [calculateRadarPositions, List.length_map, List.length_range]

/-- C1: for every n ≥ 1, the angle table `angles(n)` is an ordered
sequence of exactly n entries with `angle[i] = π/2 − 2π·i/n` for
`i ∈ [0, n)`: it starts at `π/2`, each consecutive pair differs by
exactly `−2π/n`, and repeated calls with the same n return the same
sequence (the `lru_cache` memoizes a pure function). -/
theorem radar_angle_table_spec (n : ℕ) (h : 1 ≤ n) :
    (calculateRadarPositions Real.pi n).length = n ∧
    (calculateRadarPositions Real.pi n)[0]? = some (Real.pi / 2) ∧
    (∀ i : ℕ, i < n →
      (calculateRadarPositions Real.pi n)[i]? =
        some (Real.pi / 2 - 2 * Real.pi * (i : ℝ) / (n : ℝ))) ∧
    (∀ i : ℕ, i + 1 < n → ∀ a b : ℝ,
      (calculateRadarPositions Real.pi n)[i]? = some a →
      (calculateRadarPositions Real.pi n)[i + 1]? = some b →
      b - a = -(2 * Real.pi / (n : ℝ))) ∧
    calculateRadarPositions Real.pi n = calculateRadarPositions Real.pi n := by
  have hn : (n : ℝ) ≠ 0 := Nat.cast_ne_zero.mpr (by omega)
  refine ⟨length_calculateRadarPositions _ _, ?_, ?_, ?_, rfl⟩
  · rw [calculateRadarPositions_getElem Real.pi n 0 (by omega)]
    norm_num
  · intro i hi
    exact calculateRadarPositions_getElem Real.pi n i hi
  · intro i hi a b ha hb
    rw [calculateRadarPositions_getElem Real.pi n i (by omega)] at ha
    rw [calculateRadarPositions_getElem Real.pi n (i + 1) hi] at hb
    obtain rfl := Option.some.inj ha
    obtain rfl := Option.some.inj hb
    push_cast
    field_simp
    ring

/-- Witness for C1 at n = 3. -/
theorem radar_angle_table_spec_witness :
    (calculateRadarPositions Real.pi 3).length = 3 ∧
    (calculateRadarPositions Real.pi 3)[0]? = some (Real.pi / 2) ∧
    (∀ i : ℕ, i < 3 →
      (calculateRadarPositions Real.pi 3)[i]? =
        some (Real.pi / 2 - 2 * Real.pi * (i : ℝ) / ((3 : ℕ) : ℝ))) ∧
    (∀ i : ℕ, i + 1 < 3 → ∀ a b : ℝ,
      (calculateRadarPositions Real.pi 3)[i]? = some a →
      (calculateRadarPositions Real.pi 3)[i + 1]? = some b →
      b - a = -(2 * Real.pi / ((3 : ℕ) : ℝ))) ∧
    calculateRadarPositions Real.pi 3 = calculateRadarPositions Real.pi 3 :=
  radar_angle_table_spec 3 (by norm_num)

/-- C9 counterexample: `angles(0)` does not fail.  The list comprehension
over `range(0)` returns the empty list, so the call for n = 0 succeeds
and yields the empty angle table rather than raising `InvalidInput`. -/
theorem zero_categories_counterexample :
    calculateRadarPositions Real.pi 0 = ([] : List ℝ) := rfl

/-- C9 amended: the angle-table computation has no error condition for
any n ≥ 0; in particular for n = 0 it silently returns the empty table
(there is no precondition check in `_calculate_radar_positions`). -/
theorem angle_table_total :
    (∀ n : ℕ, (calculateRadarPositions Real.pi n).length = n) ∧
    calculateRadarPositions Real.pi 0 = ([] : List ℝ) :=
  ⟨fun n => length_calculateRadarPositions Real.pi n, rfl⟩

/-- C2: for a series of n categories (n ≥ 1) with an angle set of the
same length n, the data polygon has exactly n + 1 points, its last point
equals its first point, the closure re-appends point 0 after the last
point, and the first n points agree with the unclosed coordinate list
(series order preserved, no resorting). -/
theorem data_polygon_closed (values angles : List ℝ) (n : ℕ)
    (hv : values.length = n) (ha : angles.length = n) (hn : 1 ≤ n) :
    ∃ c cs, radarCoords Real.cos Real.sin values angles = c :: cs ∧
      plotSeries Real.cos Real.sin values angles = .ok ((c :: cs) ++ [c]) ∧
      ((c :: cs) ++ [c]).length = n + 1 ∧
      ((c :: cs) ++ [c])[0]? = some c ∧
      ((c :: cs) ++ [c])[n]? = some c ∧
      ((c :: cs) ++ [c]).getLast? = some c ∧
      (∀ i : ℕ, i < n →
        ((c :: cs) ++ [c])[i]? =
          (radarCoords Real.cos Real.sin values angles)[i]?) := by
  have hlen : (radarCoords Real.cos Real.sin values angles).length = n := by
    rw [radarCoords, List.length_zipWith, hv, ha, min_self]
  obtain ⟨c, cs, hc⟩ :
      ∃ c cs, radarCoords Real.cos Real.sin values angles = c :: cs := by
    cases hcase : radarCoords Real.cos Real.sin values angles with
    | nil => rw [hcase] at hlen; simp at hlen; omega
    | cons c cs => exact ⟨c, cs, rfl⟩
  have hlen' : (c :: cs).length = n := by rw [← hc]; exact hlen
  refine ⟨c, cs, hc, ?_, ?_, ?_, ?_, List.getLast?_concat _, ?_⟩
  · rw [plotSeries, hc]; rfl
  · rw [List.length_append, hlen']; rfl
  · simp
  · rw [List.getElem?_append_right hlen'.le, hlen']
    simp
  · intro i hi
    rw [hc]
    have hi' : i < (c :: cs).length := by omega
    exact List.getElem?_append_left hi'

/-- Witness for C2 with three scores and the three-spoke angle table. -/
theorem data_polygon_closed_witness :
    ∃ c cs, radarCoords Real.cos Real.sin [(30 : ℝ), 50, 90]
        (calculateRadarPositions Real.pi 3) = c :: cs ∧
      plotSeries Real.cos Real.sin [(30 : ℝ), 50, 90]
        (calculateRadarPositions Real.pi 3) = .ok ((c :: cs) ++ [c]) ∧
      ((c :: cs) ++ [c]).length = 3 + 1 ∧
      ((c :: cs) ++ [c])[0]? = some c ∧
      ((c :: cs) ++ [c])[3]? = some c ∧
      ((c :: cs) ++ [c]).getLast? = some c ∧
      (∀ i : ℕ, i < 3 →
        ((c :: cs) ++ [c])[i]? =
          (radarCoords Real.cos Real.sin [(30 : ℝ), 50, 90]
            (calculateRadarPositions Real.pi 3))[i]?) :=
  data_polygon_closed [(30 : ℝ), 50, 90] (calculateRadarPositions Real.pi 3) 3
    rfl (length_calculateRadarPositions Real.pi 3) (by norm_num)

/-- C3: data point i is exactly `(score[i]·cos(angle[i]),
score[i]·sin(angle[i]))`, with no clamping for any score value; a score
of 0 maps exactly to the origin, and a score of 100 maps exactly onto the
corresponding vertex of the value-100 grid ring. -/
theorem series_point_formula (values angles : List ℝ) (i : ℕ) (v θ : ℝ)
    (hv : values[i]? = some v) (hθ : angles[i]? = some θ) :
    (radarCoords Real.cos Real.sin values angles)[i]? =
      some (v * Real.cos θ, v * Real.sin θ) ∧
    (v = 0 → (v * Real.cos θ, v * Real.sin θ) = ((0 : ℝ), (0 : ℝ))) ∧
    (v = 100 →
      (gridRingCoords Real.cos Real.sin (100 : ℝ) angles)[i]? =
        some (v * Real.cos θ, v * Real.sin θ)) := by
  refine ⟨?_, ?_, ?_⟩
  · rw [radarCoords]
    exact List.getElem?_zipWith_eq_some.mpr ⟨v, θ, hv, hθ, rfl⟩
  · rintro rfl; norm_num
  · rintro rfl
    rw [gridRingCoords, List.getElem?_map, hθ, Option.map_some']

/-- Witness for C3 at the boundary score 100. -/
theorem series_point_formula_witness :
    (radarCoords Real.cos Real.sin [(0 : ℝ), 100]
        [Real.pi / 2, Real.pi])[1]? =
      some ((100 : ℝ) * Real.cos Real.pi, (100 : ℝ) * Real.sin Real.pi) ∧
    ((100 : ℝ) = 0 →
      ((100 : ℝ) * Real.cos Real.pi, (100 : ℝ) * Real.sin Real.pi) =
        ((0 : ℝ), (0 : ℝ))) ∧
    ((100 : ℝ) = 100 →
      (gridRingCoords Real.cos Real.sin (100 : ℝ)
          [Real.pi / 2, Real.pi])[1]? =
        some ((100 : ℝ) * Real.cos Real.pi, (100 : ℝ) * Real.sin Real.pi)) :=
  series_point_formula [(0 : ℝ), 100] [Real.pi / 2, Real.pi] 1 100 Real.pi
    rfl rfl

/-- C4 counterexample: with six scores and five angles the series-plotting
step does not fail at all — `zip` silently truncates to the five pairs and
the closed polygon has 6 points, so no `ShapeMismatch` (indeed no error of
any kind) is raised on mismatched lengths. -/
theorem shape_mismatch_counterexample :
    (plotSeries Real.cos Real.sin scoresSix
        (calculateRadarPositions Real.pi 5)).toOption.map List.length =
      some 6 := rfl

/-- C4 amended: on mismatched nonempty score/angle lists the
series-plotting step succeeds, silently truncating to the shorter length:
the polygon is the zipped coordinate list closed with its first point and
has `min(len(scores), len(angles)) + 1` points. -/
theorem series_plot_truncates (v θ : ℝ) (vs θs : List ℝ) :
    plotSeries Real.cos Real.sin (v :: vs) (θ :: θs) =
      .ok (radarCoords Real.cos Real.sin (v :: vs) (θ :: θs) ++
        [(v * Real.cos θ, v * Real.sin θ)]) ∧
    ∃ p, plotSeries Real.cos Real.sin (v :: vs) (θ :: θs) = .ok p ∧
      p.length = min (v :: vs).length (θ :: θs).length + 1 := by
  have h1 : plotSeries Real.cos Real.sin (v :: vs) (θ :: θs) =
      .ok (radarCoords Real.cos Real.sin (v :: vs) (θ :: θs) ++
        [(v * Real.cos θ, v * Real.sin θ)]) := by
    rw [plotSeries, radarCoords, List.zipWith_cons_cons]
    rfl
  refine ⟨h1, _, h1, ?_⟩
  rw [List.length_append, radarCoords, List.length_zipWith]
  simp [Nat.succ_min_succ]

lemma gridRings_eq_map {K : Type} [Field K] (cos sin : K → K) (θ : K)
    (rest : List K) (maxValue : ℕ) (L : List ℕ) :
    gridRings cos sin (θ :: rest) maxValue L =
      .ok (L.map (fun r : ℕ =>
        (gridRingCoords cos sin (r : K) (θ :: rest) ++
          [((r : K) * cos θ, (r : K) * sin θ)],
         lineProps r maxValue))) := by
  induction L with
  | nil => rfl
  | cons r L ih => simp [gridRings, gridRingCoords, closePolygon, ih]

lemma mem_gridValues (maxValue v : ℕ) :
    v ∈ gridValues maxValue ↔ 25 ∣ v ∧ 1 ≤ v ∧ v ≤ maxValue := by
  simp only [gridValues, pyRange, List.mem_map, List.mem_range]
  constructor
  · rintro ⟨i, hi, rfl⟩
    exact ⟨⟨i + 1, by ring⟩, by omega, by omega⟩
  · rintro ⟨⟨k, rfl⟩, h1, h2⟩
    exact ⟨k - 1, by omega, by omega⟩

/-- C8: for every nonempty angle set and every maximum scale value, the
grid renderer draws exactly one closed polygon ring per multiple of 25 in
`[1, max]` (each ring value listed once, in order), each ring's vertices
being `(ring_value·cos θ, ring_value·sin θ)` with the first vertex
re-appended; the ring whose value equals the maximum is styled with the
heavier stroke (1.5 vs 0.5), full opacity (1.0 vs 0.7), darker color and
solid line, while every other ring is thin, lighter, dashed and
semi-transparent. -/
theorem radar_grid_spec (θ : ℝ) (rest : List ℝ) (maxValue : ℕ) :
    createRadarGrid Real.cos Real.sin (θ :: rest) maxValue =
      .ok ((gridValues maxValue).map (fun r : ℕ =>
        (gridRingCoords Real.cos Real.sin (r : ℝ) (θ :: rest) ++
          [((r : ℝ) * Real.cos θ, (r : ℝ) * Real.sin θ)],
         lineProps r maxValue))) ∧
    (∀ v : ℕ, v ∈ gridValues maxValue ↔ 25 ∣ v ∧ 1 ≤ v ∧ v ≤ maxValue) ∧
    (gridValues maxValue).Nodup ∧
    lineProps maxValue maxValue = ⟨"#333333", 3 / 2, "-", 1⟩ ∧
    (∀ r : ℕ, r ≠ maxValue →
      lineProps r maxValue = ⟨"gray", 1 / 2, "--", 7 / 10⟩) ∧
    (1 : ℚ) / 2 < 3 / 2 ∧ (7 : ℚ) / 10 < 1 := by
  refine ⟨gridRings_eq_map Real.cos Real.sin θ rest maxValue _,
    fun v => mem_gridValues maxValue v, ?_, by simp [lineProps], ?_,
    by norm_num, by norm_num⟩
  · simp only [gridValues, pyRange]
    exact List.Nodup.map (fun a b hab => by omega) (List.nodup_range _)
  · intro r hr
    simp [lineProps, hr]

lemma getKey_map_update (fields : List (String × Json)) (k : String)
    (v : Json) (h : fields.any (fun p => p.1 = k) = true) :
    getKey (fields.map (fun p => if p.1 = k then (k, v) else p)) k =
      some v := by
  induction fields with
  | nil => simp at h
  | cons a l ih =>
    by_cases hk : a.1 = k
    · rw [List.map_cons]
      show getKey ((if a.1 = k then (k, v) else a) :: _) k = some v
      rw [if_pos hk, getKey, List.find?_cons_of_pos _ (by simp)]
      rfl
    · have h' : l.any (fun p => p.1 = k) = true := by
        simpa [List.any_cons, hk] using h
      rw [List.map_cons]
      show getKey ((if a.1 = k then (k, v) else a) :: _) k = some v
      rw [if_neg hk, getKey, List.find?_cons_of_neg _ (by simp [hk])]
      exact ih h'

lemma getKey_map_ne (fields : List (String × Json)) (k : String) (v : Json)
    (q : String) (hne : q ≠ k) :
    getKey (fields.map (fun p => if p.1 = k then (k, v) else p)) q =
      getKey fields q := by
  induction fields with
  | nil => rfl
  | cons a l ih =>
    rw [List.map_cons]
    show getKey ((if a.1 = k then (k, v) else a) :: _) q = _
    by_cases hk : a.1 = k
    · rw [if_pos hk, getKey, List.find?_cons_of_neg _ (by simp [Ne.symm hne]),
        getKey, List.find?_cons_of_neg _ (by simp [hk, Ne.symm hne])]
      exact ih
    · by_cases hq : a.1 = q
      · rw [if_neg hk, getKey, List.find?_cons_of_pos _ (by simp [hq]),
          getKey, List.find?_cons_of_pos _ (by simp [hq])]
      · rw [if_neg hk, getKey, List.find?_cons_of_neg _ (by simp [hq]),
          getKey, List.find?_cons_of_neg _ (by simp [hq])]
        exact ih

lemma setKey_not_mem (fields : List (String × Json)) (k : String)
    (v : Json) (h : fields.any (fun p => p.1 = k) = false) :
    setKey fields k v = fields ++ [(k, v)] := by
  simp [setKey, h]

lemma getKey_setKey_self (fields : List (String × Json)) (k : String)
    (v : Json) : getKey (setKey fields k v) k = some v := by
  rw [setKey]
  split
  · exact getKey_map_update fields k v (by assumption)
  · rename_i h
    have hnone : fields.find? (fun p => p.1 = k) = none := by
      rw [List.find?_eq_none]
      intro x hx hxk
      exact h (List.any_eq_true.mpr ⟨x, hx, hxk⟩)
    rw [getKey, List.find?_append, hnone, List.find?_cons_of_pos _ (by simp)]
    rfl

lemma getKey_setKey_ne (fields : List (String × Json)) (k : String)
    (v : Json) (q : String) (hne : q ≠ k) :
    getKey (setKey fields k v) q = getKey fields q := by
  rw [setKey]
  split
  · exact getKey_map_ne fields k v q hne
  · have hsingle : List.find? (fun p => p.1 = q) [(k, v)] = none := by
      rw [List.find?_cons_of_neg _ (by simp [Ne.symm hne])]
      rfl
    rw [getKey, List.find?_append, hsingle, getKey]
    cases fields.find? (fun p => p.1 = q) <;> rfl

lemma generateRadarChart_ok_saveLoop {K : Type} [Field K] (pi : K)
    (cos sin : K → K) (save : String → Except Err String) (data : Json)
    (fmts : List String) (res : List (String × String))
    (h : generateRadarChart pi cos sin save data fmts = .ok res) :
    saveLoop save fmts = .ok res := by
  unfold generateRadarChart generateRadarChartT at h
  repeat' split at h
  all_goals simp_all

lemma saveLoop_single (save : String → Except Err String) (fmt : String)
    (res : List (String × String)) (h : saveLoop save [fmt] = .ok res) :
    ∃ payload, save fmt = .ok payload ∧ res = [(fmt, payload)] := by
  unfold saveLoop at h
  split at h
  · simp at h
  · rename_i payload heq
    simp only [saveLoop] at h
    refine ⟨payload, heq, ?_⟩
    cases h
    rfl

lemma prepare_sample_ok :
    preparePdfData Real.pi Real.cos Real.sin goodSave sampleRecord =
      .ok enrichedSample := rfl

/-- C5: whenever `prepare_pdf_data` succeeds, the returned record is the
caller-supplied record with the base64 chart payload written under the
fixed top-level key `RadarGraphBase64`; every other top-level field maps
to the identical (hence at every nesting level unchanged) subtree, and
when the key was not already present the update is exactly one appended
field, the rest of the structure untouched. -/
theorem prepare_pdf_data_frame (save : String → Except Err String)
    (rawData result : Json)
    (h : preparePdfData Real.pi Real.cos Real.sin save rawData =
      .ok result) :
    ∃ fields payload,
      rawData = .obj fields ∧
      save "svg" = .ok payload ∧
      result = .obj (setKey fields "RadarGraphBase64" (.str payload)) ∧
      getKey (setKey fields "RadarGraphBase64" (.str payload))
        "RadarGraphBase64" = some (.str payload) ∧
      (∀ k, k ≠ "RadarGraphBase64" →
        getKey (setKey fields "RadarGraphBase64" (.str payload)) k =
          getKey fields k) ∧
      (fields.any (fun p => p.1 = "RadarGraphBase64") = false →
        setKey fields "RadarGraphBase64" (.str payload) =
          fields ++ [("RadarGraphBase64", .str payload)]) := by
  rw [preparePdfData] at h
  split at h
  · exact absurd h (by simp)
  · rename_i chartData hchart
    split at h
    · exact absurd h (by simp)
    · rename_i svg hfind
      have hsl : saveLoop save ["svg"] = .ok chartData :=
        generateRadarChart_ok_saveLoop Real.pi Real.cos Real.sin save
          rawData ["svg"] chartData hchart
      obtain ⟨payload, hsave, hcd⟩ := saveLoop_single save "svg" _ hsl
      subst hcd
      have hsvg : svg = payload := by
        rw [List.find?_cons_of_pos _ (by simp)] at hfind
        simpa using hfind.symm
      rw [hsvg] at h
      cases rawData with
      | obj fields =>
          refine ⟨fields, payload, rfl, hsave, ?_, getKey_setKey_self _ _ _,
            fun k hk => getKey_setKey_ne _ _ _ _ hk,
            fun hnm => setKey_not_mem _ _ _ hnm⟩
          have h' : (Except.ok (Json.obj
              (setKey fields "RadarGraphBase64" (.str payload))) :
              Except Err Json) = .ok result := h
          exact (Except.ok.inj h').symm
      | str s =>
          exact absurd (show (Except.error (Err.invalidInput
            "RadarGraphBase64") : Except Err Json) = .ok result from h)
            (by simp)
      | num n =>
          exact absurd (show (Except.error (Err.invalidInput
            "RadarGraphBase64") : Except Err Json) = .ok result from h)
            (by simp)
      | arr elems =>
          exact absurd (show (Except.error (Err.invalidInput
            "RadarGraphBase64") : Except Err Json) = .ok result from h)
            (by simp)

/-- Witness for C5 on the sample record with the always-succeeding export
oracle. -/
theorem prepare_pdf_data_frame_witness :
    ∃ fields payload,
      sampleRecord = .obj fields ∧
      goodSave "svg" = .ok payload ∧
      enrichedSample = .obj (setKey fields "RadarGraphBase64" (.str payload)) ∧
      getKey (setKey fields "RadarGraphBase64" (.str payload))
        "RadarGraphBase64" = some (.str payload) ∧
      (∀ k, k ≠ "RadarGraphBase64" →
        getKey (setKey fields "RadarGraphBase64" (.str payload)) k =
          getKey fields k) ∧
      (fields.any (fun p => p.1 = "RadarGraphBase64") = false →
        setKey fields "RadarGraphBase64" (.str payload) =
          fields ++ [("RadarGraphBase64", .str payload)]) :=
  prepare_pdf_data_frame goodSave sampleRecord enrichedSample rfl

/-- C6: once the data is prepared, the external-render invocation returns
the given output path unchanged when the external process exits with
code 0; for every non-zero exit code it raises the external-process
failure carrying that exit code (and the captured output, which is `none`
since `subprocess.run` is invoked without capturing), and does not return
a path. -/
theorem subprocess_exit_spec (save : String → Except Err String)
    (dumps : Json → String) (runNode : String → String → ℤ)
    (data prepared : Json) (outputPath : String)
    (h : preparePdfData Real.pi Real.cos Real.sin save data =
      .ok prepared) :
    (runNode (dumps prepared) outputPath = 0 →
      generatePdfSubprocess Real.pi Real.cos Real.sin save dumps runNode
        data outputPath = .ok outputPath) ∧
    (runNode (dumps prepared) outputPath ≠ 0 →
      generatePdfSubprocess Real.pi Real.cos Real.sin save dumps runNode
        data outputPath =
        .error (.externalProcessFailure
          (runNode (dumps prepared) outputPath) none) ∧
      ∀ p, generatePdfSubprocess Real.pi Real.cos Real.sin save dumps
        runNode data outputPath ≠ .ok p) := by
  rw [generatePdfSubprocess, h]
  constructor
  · intro h0
    simp [h0]
  · intro hne
    refine ⟨by simp [hne], ?_⟩
    intro p hp
    simp [hne] at hp

/-- Witness for C6: the external renderer stub exits with code 1 on the
prepared sample record, so the call raises the failure carrying exit
code 1 and returns no path. -/
theorem subprocess_exit_spec_witness :
    (runNodeFail (dumpsStub enrichedSample) "output/final.pdf" = 0 →
      generatePdfSubprocess Real.pi Real.cos Real.sin goodSave dumpsStub
        runNodeFail sampleRecord "output/final.pdf" =
        .ok "output/final.pdf") ∧
    (runNodeFail (dumpsStub enrichedSample) "output/final.pdf" ≠ 0 →
      generatePdfSubprocess Real.pi Real.cos Real.sin goodSave dumpsStub
        runNodeFail sampleRecord "output/final.pdf" =
        .error (.externalProcessFailure
          (runNodeFail (dumpsStub enrichedSample) "output/final.pdf")
          none) ∧
      ∀ p, generatePdfSubprocess Real.pi Real.cos Real.sin goodSave
        dumpsStub runNodeFail sampleRecord "output/final.pdf" ≠ .ok p) :=
  subprocess_exit_spec goodSave dumpsStub runNodeFail sampleRecord
    enrichedSample "output/final.pdf" rfl

lemma getField_error (j : Json) (k : String) (e : Err)
    (h : Json.getField j k = .error e) : e = .invalidInput k := by
  cases j with
  | obj fields =>
      rw [Json.getField] at h
      split at h
      · exact absurd h (by simp)
      · exact (Except.error.inj h).symm
  | str s => exact (Except.error.inj h).symm
  | num n => exact (Except.error.inj h).symm
  | arr elems => exact (Except.error.inj h).symm

lemma pyParseInt_error (s : String) (e : Err)
    (h : pyParseInt s = .error e) : e = .invalidInput s := by
  rw [pyParseInt] at h
  repeat' split at h
  all_goals simp_all

lemma pyInt_error (j : Json) (e : Err) (h : pyInt j = .error e) :
    ∃ m, e = .invalidInput m := by
  cases j with
  | num n => exact absurd h (by rw [pyInt]; simp)
  | str s => exact ⟨s, pyParseInt_error s e h⟩
  | obj fields => exact ⟨"int", (Except.error.inj h).symm⟩
  | arr elems => exact ⟨"int", (Except.error.inj h).symm⟩

lemma extractCategories_error (l : List Json) (e : Err)
    (h : extractCategories l = .error e) : ∃ m, e = .invalidInput m := by
  induction l with
  | nil => exact absurd h (by rw [extractCategories]; simp)
  | cons a l ih =>
      rw [extractCategories] at h
      split at h
      · rename_i err heq
        obtain rfl := Except.error.inj h
        exact ⟨"holland_code", getField_error a "holland_code" err heq⟩
      · split at h
        · rename_i err heq
          obtain rfl := Except.error.inj h
          exact ih heq
        · exact absurd h (by simp)

lemma extractValues_error (l : List Json) (e : Err)
    (h : extractValues l = .error e) : ∃ m, e = .invalidInput m := by
  induction l with
  | nil => exact absurd h (by rw [extractValues]; simp)
  | cons a l ih =>
      rw [extractValues] at h
      cases hgf : Json.getField a "result" with
      | error err =>
          simp only [hgf] at h
          obtain rfl := Except.error.inj h
          exact ⟨"result", getField_error a "result" err hgf⟩
      | ok r =>
          simp only [hgf] at h
          cases hpi : pyInt r with
          | error err =>
              simp only [hpi] at h
              obtain rfl := Except.error.inj h
              exact pyInt_error r err hpi
          | ok v =>
              simp only [hpi] at h
              cases hev : extractValues l with
              | error err =>
                  simp only [hev] at h
                  obtain rfl := Except.error.inj h
                  exact ih hev
              | ok vs =>
                  simp only [hev] at h
                  exact absurd h (by simp)

lemma extractValues_fails_of_mem (l : List Json) (a : Json) (s : String)
    (perr : Err) (hmem : a ∈ l)
    (hres : Json.getField a "result" = .ok (.str s))
    (hparse : pyParseInt s = .error perr) :
    ∃ e, extractValues l = .error e := by
  induction l with
  | nil => cases hmem
  | cons b l ih =>
      rcases List.mem_cons.mp hmem with rfl | hmem'
      · exact ⟨perr, by rw [extractValues]; simp only [hres, pyInt, hparse]⟩
      · cases hgf : Json.getField b "result" with
        | error e =>
            exact ⟨e, by rw [extractValues]; simp only [hgf]⟩
        | ok r =>
            cases hpi : pyInt r with
            | error e =>
                exact ⟨e, by rw [extractValues]; simp only [hgf, hpi]⟩
            | ok v =>
                obtain ⟨e, he⟩ := ih hmem'
                exact ⟨e, by rw [extractValues]; simp only [hgf, hpi, he]⟩

/-- C7: an input record whose genetic-results mapping contains an entry
with a non-numeric score string makes the chart step fail with
`InvalidInput`; every chart failure propagates to `prepare_pdf_data`
unchanged, assembly then produces no enriched record at all
(all-or-nothing), and the same error propagates unchanged through the
downstream `generate_pdf_subprocess` call (no render attempt). -/
theorem invalid_score_all_or_nothing (save : String → Except Err String)
    (data : Json) (entries : List Json) (entry : Json) (s : String)
    (perr : Err)
    (hext : extractGeneticResults data = .ok entries)
    (hmem : entry ∈ entries)
    (hres : Json.getField entry "result" = .ok (.str s))
    (hparse : pyParseInt s = .error perr) :
    (∃ m, generateRadarChart Real.pi Real.cos Real.sin save data ["svg"] =
      .error (.invalidInput m)) ∧
    (∀ e, generateRadarChart Real.pi Real.cos Real.sin save data ["svg"] =
        .error e →
      preparePdfData Real.pi Real.cos Real.sin save data = .error e) ∧
    (∀ r, preparePdfData Real.pi Real.cos Real.sin save data ≠ .ok r) ∧
    (∀ e dumps runNode outputPath,
      preparePdfData Real.pi Real.cos Real.sin save data = .error e →
      generatePdfSubprocess Real.pi Real.cos Real.sin save dumps runNode
        data outputPath = .error e) := by
  have h1 : ∃ m,
      generateRadarChart Real.pi Real.cos Real.sin save data ["svg"] =
        .error (.invalidInput m) := by
    cases hcat : extractCategories entries with
    | error e =>
        obtain ⟨m, rfl⟩ := extractCategories_error entries e hcat
        exact ⟨m, by rw [generateRadarChart, generateRadarChartT]
                     simp only [hext, hcat]⟩
    | ok cats =>
        obtain ⟨e, hval⟩ :=
          extractValues_fails_of_mem entries entry s perr hmem hres hparse
        obtain ⟨m, rfl⟩ := extractValues_error entries e hval
        exact ⟨m, by rw [generateRadarChart, generateRadarChartT]
                     simp only [hext, hcat, hval]⟩
  have h2 : ∀ e,
      generateRadarChart Real.pi Real.cos Real.sin save data ["svg"] =
        .error e →
      preparePdfData Real.pi Real.cos Real.sin save data = .error e := by
    intro e he
    rw [preparePdfData]
    simp only [he]
  refine ⟨h1, h2, ?_, ?_⟩
  · intro r hr
    obtain ⟨m, hm⟩ := h1
    rw [h2 _ hm] at hr
    exact absurd hr (by simp)
  · intro e dumps runNode outputPath hpe
    rw [generatePdfSubprocess]
    simp only [hpe]

/-- Witness for C7: the record whose only entry carries the non-numeric
score string. -/
theorem invalid_score_all_or_nothing_witness :
    (∃ m, generateRadarChart Real.pi Real.cos Real.sin goodSave badRecord
      ["svg"] = .error (.invalidInput m)) ∧
    (∀ e, generateRadarChart Real.pi Real.cos Real.sin goodSave badRecord
        ["svg"] = .error e →
      preparePdfData Real.pi Real.cos Real.sin goodSave badRecord =
        .error e) ∧
    (∀ r, preparePdfData Real.pi Real.cos Real.sin goodSave badRecord ≠
      .ok r) ∧
    (∀ e dumps runNode outputPath,
      preparePdfData Real.pi Real.cos Real.sin goodSave badRecord =
        .error e →
      generatePdfSubprocess Real.pi Real.cos Real.sin goodSave dumps
        runNode badRecord outputPath = .error e) :=
  invalid_score_all_or_nothing goodSave badRecord [badEntry] badEntry
    "abc" (Err.invalidInput "abc") rfl (List.mem_singleton.mpr rfl) rfl rfl

/-- C10 counterexample: when the export step raises (here, the `save`
oracle fails with an OS-level error on an otherwise valid record), the
error propagates with the figure still open — the event trace contains
the figure creation but no `plt.close(fig)`, because the close at line
155 is only on the success path and the `except` block re-raises without
closing. -/
theorem fig_release_counterexample :
    generateRadarChartT Real.pi Real.cos Real.sin badSave sampleRecord
      ["svg"] = ([Event.figCreated], .error Err.ioError) ∧
    Event.figClosed ∉ [Event.figCreated] := ⟨rfl, by decide⟩

/-- C10 amended: the drawing surface is released before returning on the
successful path (the trace ends with the close event); on every error
exit the error propagates without the figure having been closed (no close
event in the trace) — release is not guaranteed on failure paths. -/
theorem fig_release_success_only (save : String → Except Err String)
    (data : Json) (formats : List String) (events : List Event)
    (result : Except Err (List (String × String)))
    (h : generateRadarChartT Real.pi Real.cos Real.sin save data formats =
      (events, result)) :
    ((∃ out, result = .ok out) →
      events = [Event.figCreated, Event.figClosed]) ∧
    ((∃ e, result = .error e) → Event.figClosed ∉ events) := by
  rw [generateRadarChartT] at h
  repeat' split at h
  all_goals injection h with h1 h2
  all_goals subst h1
  all_goals subst h2
  all_goals
    refine ⟨fun hx => ?_, fun hx => ?_⟩ <;> obtain ⟨x, hx⟩ := hx <;>
      simp_all

/-- Witness for C10 on the successful sample run: the trace is figure
creation followed by the close, and the result is the svg payload map. -/
theorem fig_release_success_only_witness :
    ((∃ out, (Except.ok [("svg", "PAYLOAD")] :
        Except Err (List (String × String))) = .ok out) →
      [Event.figCreated, Event.figClosed] =
        [Event.figCreated, Event.figClosed]) ∧
    ((∃ e, (Except.ok [("svg", "PAYLOAD")] :
        Except Err (List (String × String))) = .error e) →
      Event.figClosed ∉ [Event.figCreated, Event.figClosed]) :=
  fig_release_success_only goodSave sampleRecord ["svg"]
    [Event.figCreated, Event.figClosed] (.ok [("svg", "PAYLOAD")]) rfl
